import Mathlib

/-!
Shallow embedding of `src/pypiuploader/download.py` (bibby/pypi-uploader).

The module defines one class, `PackageDownloader`, which builds a `pip`
argument list, ensures the destination directory exists, invokes
`pip.main`, and on success enumerates the regular files directly under
the destination directory.  All external behaviour (the pip version, the
result of `pip.main`, the filesystem) is modelled by an explicit `World`
record, and the side effects performed by a `download` call are recorded
in an explicit effect trace.

Paths are POSIX strings; the pip version string is modelled as its release
tuple (`List Nat`) with PEP 440 zero-padded lexicographic comparison,
which is how `pip._vendor.packaging.version.parse` compares plain
release versions such as `7.1.2` and `8.0.0`.
-/

namespace PypiUploader

/-- Kinds of `OSError` that `os.makedirs` may raise: the directory already
exists, permission denied, invalid path, or anything else. -/
inductive OSErrorKind where
  | eexist
  | eacces
  | einval
  | other
deriving DecidableEq

/-- A filesystem side effect performed by `_make_download_dir`. -/
inductive FSEffect where
  | mkdtemp (path : String)
  | makedirs (path : String)
deriving DecidableEq

/-- A side effect performed during a `download` call: a filesystem effect
or an invocation of `pip.main` with an argument list. -/
inductive Effect where
  | fs (e : FSEffect)
  | pipInvoke (args : List String)
deriving DecidableEq

/-- The external world a `download` call runs against: the pip version
(release tuple), the fresh directory `tempfile.mkdtemp` would return, the
outcome of `os.makedirs` on each path (`none` = success, `some k` = raises
`OSError` of kind `k`), the exit status `pip.main` returns for each
argument list, the direct children `os.listdir` reports for each
directory, and the `os.path.isfile` classification of each path. -/
structure World where
  pipVersion : List Nat
  mkdtempResult : String
  makedirsOutcome : String → Option OSErrorKind
  pipMain : List String → Nat
  listdir : String → List String
  isfile : String → Bool

/-- `pip.status_codes.SUCCESS`. -/
def SUCCESS : Nat := 0

/-- PEP 440 comparison of release tuples, zero-padded on the right:
`versionLt a b` holds when version `a` is strictly below version `b`. -/
def versionLt : List Nat → List Nat → Bool
  | [], b => b.any (fun y => decide (0 < y))
  | x :: xs, b =>
      decide (x < b.headD 0) || (decide (x = b.headD 0) && versionLt xs b.tail)

/-- The slash character. -/
def slash : Char := Char.ofNat 47

/-- A POSIX path is absolute when it starts with a slash. -/
def isAbs (s : String) : Bool :=
  match s.data with
  | [] => false
  | c :: _ => c = slash

/-- Whether a path ends with a slash. -/
def endsWithSlash (s : String) : Bool :=
  s.data.getLast? = some slash

/-- `os.path.join` for two POSIX path components: an absolute second
component discards the first; otherwise the components are joined with a
separator unless the first is empty or already ends in one. -/
def osPathJoin (a b : String) : String :=
  if isAbs b then b
  else if a = "" || endsWithSlash a then a ++ b
  else a ++ "/" ++ b

/-- Python `repr` of a string over printable characters: single quotes,
unless the string contains a single quote and no double quote; the quote
character and backslashes are escaped. -/
def pyStrRepr (s : String) : String :=
  let sq : Char := Char.ofNat 39
  let dq : Char := Char.ofNat 34
  let bs : Char := Char.ofNat 92
  let q : Char := if s.data.contains sq && !(s.data.contains dq) then dq else sq
  let esc : Char → String := fun c =>
    if c = bs then String.mk [bs, bs]
    else if c = q then String.mk [bs, c]
    else String.singleton c
  String.singleton q ++ String.join (s.data.map esc) ++ String.singleton q

/-- Python `str`/`repr` of a list of strings, as produced by the `%s`
format specifier applied to a list. -/
def pyListRepr (args : List String) : String :=
  "[" ++ String.intercalate ", " (args.map pyStrRepr) ++ "]"

/-- The message built by `PackageDownloadErr.__init__`: the format string
"package failed download, exit %d. Arguments: %s" applied to the status
and the argument list. -/
def downloadErrMessage (status : Nat) (args : List String) : String :=
  "package failed download, exit " ++ toString status ++ ". Arguments: "
    ++ pyListRepr args

/-- The `PackageDownloadErr` exception: carries the pip exit status, the
argument list, and the formatted message. -/
structure PackageDownloadErr where
  status : Nat
  args : List String
  message : String
deriving DecidableEq

/-- Outcome of a `download` call: a list of paths (the generator, run to
completion), a `ValueError` with its message, or a `PackageDownloadErr`. -/
inductive DownloadResult where
  | ok (paths : List String)
  | valueErr (msg : String)
  | pkgErr (e : PackageDownloadErr)
deriving DecidableEq

/-- `true` exactly on the `ValueError` outcome. -/
def DownloadResult.isValueErr : DownloadResult → Bool
  | .valueErr _ => true
  | _ => false

/-- `true` exactly when a result sequence was produced. -/
def DownloadResult.producesResult : DownloadResult → Bool
  | .ok _ => true
  | _ => false

/-- The instance state of `PackageDownloader`: the `download_path`
attribute, `none` when no destination was configured. -/
structure PackageDownloader where
  download_path : Option String
deriving DecidableEq

/-- The pip subcommand chosen by `_build_args`: "download", replaced by
"install" when the pip version is below 8.0.0. -/
def pipCommand (v : List Nat) : String :=
  if versionLt v [8, 0, 0] then "install" else "download"

/-- `PackageDownloader._build_args`: the subcommand, `-d` and the
download path, `--no-use-wheel` when requested, then either the
requirement strings, or `-r` and the requirements file, or a
`ValueError` when neither is given. -/
def buildArgs (pipVersion : List Nat) (download_path : String)
    (requirements : Option (List String)) (requirements_file : Option String)
    (no_use_wheel : Bool) : Except String (List String) :=
  let args := [pipCommand pipVersion, "-d", download_path]
  let args := if no_use_wheel then args ++ ["--no-use-wheel"] else args
  match requirements with
  | some rs => Except.ok (args ++ rs)
  | none =>
      match requirements_file with
      | some f => Except.ok (args ++ ["-r", f])
      | none =>
          Except.error "Either requirements or requirements_file must be given."

/-- `PackageDownloader._make_download_dir`: with no configured path, adopt
a fresh temporary directory; otherwise attempt `os.makedirs` and swallow
any `OSError` (`try ... except OSError: pass`). Returns the updated
instance and the filesystem effects performed. -/
def makeDownloadDir (w : World) (d : PackageDownloader) :
    PackageDownloader × List Effect :=
  match d.download_path with
  | none =>
      (⟨some w.mkdtempResult⟩, [Effect.fs (FSEffect.mkdtemp w.mkdtempResult)])
  | some p =>
      match w.makedirsOutcome p with
      | none => (d, [Effect.fs (FSEffect.makedirs p)])
      | some _ => (d, [Effect.fs (FSEffect.makedirs p)])

/-- The download path after `_make_download_dir`: the configured path, or
the fresh temporary directory when none was configured. -/
def resolvedPath (w : World) (d : PackageDownloader) : String :=
  match d.download_path with
  | none => w.mkdtempResult
  | some p => p

/-- `PackageDownloader._list_download_dir`: for each name listed in the
download directory, join it to the directory and yield it when it is a
regular file. -/
def listDownloadDir (w : World) (download_path : String) : List String :=
  (w.listdir download_path).filterMap (fun filename =>
    let fullpath := osPathJoin download_path filename
    if w.isfile fullpath then some fullpath else none)

/-- The part of `download` after `_make_download_dir`: build the
arguments, run `pip.main`, raise `PackageDownloadErr` on a non-success
status, and otherwise list the download directory. -/
def downloadRest (w : World) (d : PackageDownloader) (dest : String)
    (fx : List Effect) (requirements : Option (List String))
    (requirements_file : Option String) (no_use_wheel : Bool) :
    PackageDownloader × List Effect × DownloadResult :=
  match buildArgs w.pipVersion dest requirements requirements_file no_use_wheel with
  | Except.error m => (d, fx, DownloadResult.valueErr m)
  | Except.ok args =>
      let pip_result := w.pipMain args
      (d, fx ++ [Effect.pipInvoke args],
        if pip_result ≠ SUCCESS then
          DownloadResult.pkgErr
            ⟨pip_result, args, downloadErrMessage pip_result args⟩
        else
          DownloadResult.ok (listDownloadDir w dest))

/-- `PackageDownloader.download`: make the download directory, build the
arguments, invoke pip, and either raise or enumerate the results.
Returns the updated instance, the effect trace, and the outcome. -/
def download (w : World) (d : PackageDownloader)
    (requirements : Option (List String)) (requirements_file : Option String)
    (no_use_wheel : Bool) :
    PackageDownloader × List Effect × DownloadResult :=
  let md := makeDownloadDir w d
  downloadRest w md.1 (resolvedPath w d) md.2
    requirements requirements_file no_use_wheel

/-- The argument list passed to the first `pip.main` invocation recorded
in an effect trace, if any. -/
def invokedArgs : List Effect → Option (List String)
  | [] => none
  | Effect.pipInvoke a :: _ => some a
  | Effect.fs _ :: rest => invokedArgs rest


/-- A world whose pip invocation always fails with status 1. -/
def failWorld : World :=
  ⟨[8, 1, 2], "/tmp/pypiul", fun _ => none, fun _ => 1, fun _ => [], fun _ => false⟩

/-- A world whose pip invocation always succeeds and whose filesystem is
empty apart from the destination directory. -/
def bareWorld : World :=
  ⟨[8, 1, 2], "/tmp/pypiul", fun _ => none, fun _ => 0, fun _ => [], fun _ => false⟩

/-- A world where the destination directory "pkgs" ends up holding one
regular file and one subdirectory after a successful pip invocation. -/
def relWorld : World :=
  ⟨[8, 1, 2], "/tmp/pypiul", fun _ => none, fun _ => 0,
   fun p => if p = "pkgs" then ["a.tar.gz", "sub"] else [],
   fun p => p = "pkgs/a.tar.gz"⟩

/-- A world where the absolute destination directory "/pkgs" ends up
holding two regular files and one subdirectory after a successful pip
invocation. -/
def absWorld : World :=
  ⟨[8, 1, 2], "/tmp/pypiul", fun _ => none, fun _ => 0,
   fun p => if p = "/pkgs" then ["a.tar.gz", "b.tar.gz", "sub"] else [],
   fun p => p = "/pkgs/a.tar.gz" || p = "/pkgs/b.tar.gz"⟩

/-- A world where `os.makedirs` fails with permission denied on every
path, while pip succeeds. -/
def deniedWorld : World :=
  ⟨[8, 1, 2], "/tmp/pypiul", fun _ => some OSErrorKind.eacces, fun _ => 0,
   fun _ => [], fun _ => false⟩

theorem filterMap_guard {α β : Type} (g : α → β) (pr : α → Bool) (l : List α) :
    (l.filterMap fun a => if pr a then some (g a) else none)
      = (l.filter pr).map g := by
  induction l with
  | nil => simp
  | cons a l ih => cases h : pr a <;> simp [List.filter_cons, h, ih]

theorem isAbs_append_left (a b : String) (h : isAbs a = true) :
    isAbs (a ++ b) = true := by
  unfold isAbs at h ⊢
  rw [String.data_append]
  cases ha : a.data with
  | nil => rw [ha] at h; simp at h
  | cons c t => rw [ha] at h; simpa using h

theorem isAbs_osPathJoin (a b : String) (h : isAbs a = true) :
    isAbs (osPathJoin a b) = true := by
  unfold osPathJoin
  split
  · assumption
  · split
    · exact isAbs_append_left a b h
    · exact isAbs_append_left (a ++ "/") b (isAbs_append_left a "/" h)

theorem makeDownloadDir_none (w : World) (d : PackageDownloader)
    (h : d.download_path = none) :
    makeDownloadDir w d
      = (⟨some w.mkdtempResult⟩, [Effect.fs (FSEffect.mkdtemp w.mkdtempResult)]) := by
  unfold makeDownloadDir
  rw [h]

theorem makeDownloadDir_some (w : World) (d : PackageDownloader) (p : String)
    (h : d.download_path = some p) :
    makeDownloadDir w d = (d, [Effect.fs (FSEffect.makedirs p)]) := by
  unfold makeDownloadDir
  rw [h]
  cases hw : w.makedirsOutcome p <;> simp [hw]

theorem resolvedPath_none (w : World) (d : PackageDownloader)
    (h : d.download_path = none) : resolvedPath w d = w.mkdtempResult := by
  unfold resolvedPath; rw [h]

theorem resolvedPath_some (w : World) (d : PackageDownloader) (p : String)
    (h : d.download_path = some p) : resolvedPath w d = p := by
  unfold resolvedPath; rw [h]

theorem makeDownloadDir_fst_path (w : World) (d : PackageDownloader) :
    (makeDownloadDir w d).1.download_path = some (resolvedPath w d) := by
  cases h : d.download_path with
  | none => rw [makeDownloadDir_none w d h, resolvedPath_none w d h]
  | some p => rw [makeDownloadDir_some w d p h, resolvedPath_some w d p h, h]

theorem downloadRest_error (w : World) (d : PackageDownloader) (dest : String)
    (fx : List Effect) (reqs : Option (List String)) (rf : Option String)
    (nw : Bool) (m : String)
    (h : buildArgs w.pipVersion dest reqs rf nw = Except.error m) :
    downloadRest w d dest fx reqs rf nw = (d, fx, DownloadResult.valueErr m) := by
  unfold downloadRest
  rw [h]

theorem downloadRest_ok (w : World) (d : PackageDownloader) (dest : String)
    (fx : List Effect) (reqs : Option (List String)) (rf : Option String)
    (nw : Bool) (A : List String)
    (h : buildArgs w.pipVersion dest reqs rf nw = Except.ok A) :
    downloadRest w d dest fx reqs rf nw
      = (d, fx ++ [Effect.pipInvoke A],
         if w.pipMain A ≠ SUCCESS then
           DownloadResult.pkgErr
             ⟨w.pipMain A, A, downloadErrMessage (w.pipMain A) A⟩
         else DownloadResult.ok (listDownloadDir w dest)) := by
  unfold downloadRest
  rw [h]

theorem download_eq (w : World) (d : PackageDownloader)
    (reqs : Option (List String)) (rf : Option String) (nw : Bool) :
    download w d reqs rf nw
      = downloadRest w (makeDownloadDir w d).1 (resolvedPath w d)
          (makeDownloadDir w d).2 reqs rf nw := rfl

theorem buildArgs_some (v : List Nat) (dest : String) (rs : List String)
    (rf : Option String) (nw : Bool) :
    buildArgs v dest (some rs) rf nw
      = Except.ok (pipCommand v :: "-d" :: dest ::
          ((if nw then ["--no-use-wheel"] else []) ++ rs)) := by
  cases nw <;> simp [buildArgs]

theorem buildArgs_file (v : List Nat) (dest : String) (f : String) (nw : Bool) :
    buildArgs v dest none (some f) nw
      = Except.ok (pipCommand v :: "-d" :: dest ::
          ((if nw then ["--no-use-wheel"] else []) ++ ["-r", f])) := by
  cases nw <;> simp [buildArgs]

theorem buildArgs_neither (v : List Nat) (dest : String) (nw : Bool) :
    buildArgs v dest none none nw
      = Except.error "Either requirements or requirements_file must be given." := by
  cases nw <;> simp [buildArgs]

theorem invokedArgs_fs_pip (e : FSEffect) (A : List String) :
    invokedArgs [Effect.fs e, Effect.pipInvoke A] = some A := rfl

/-- C1: when pip exits with a non-success status S after being invoked
with argument list A, `download` raises a `PackageDownloadErr` recording
status S, argument list A and the message
"package failed download, exit {status}. Arguments: {args}", and no
result sequence is produced. -/
theorem download_nonsuccess_pkgErr (w : World) (d : PackageDownloader)
    (reqs : Option (List String)) (rf : Option String) (nw : Bool)
    (A : List String) (S : Nat)
    (hargs : buildArgs w.pipVersion (resolvedPath w d) reqs rf nw = Except.ok A)
    (hinv : w.pipMain A = S) (hfail : S ≠ SUCCESS) :
    invokedArgs (download w d reqs rf nw).2.1 = some A
    ∧ (download w d reqs rf nw).2.2
        = DownloadResult.pkgErr ⟨S, A,
            "package failed download, exit " ++ toString S ++ ". Arguments: "
              ++ pyListRepr A⟩
    ∧ DownloadResult.producesResult (download w d reqs rf nw).2.2 = false := by
  have hmd :
      download w d reqs rf nw
        = ((makeDownloadDir w d).1,
           (makeDownloadDir w d).2 ++ [Effect.pipInvoke A],
           if w.pipMain A ≠ SUCCESS then
             DownloadResult.pkgErr
               ⟨w.pipMain A, A, downloadErrMessage (w.pipMain A) A⟩
           else DownloadResult.ok (listDownloadDir w (resolvedPath w d))) := by
    rw [download_eq, downloadRest_ok w _ _ _ reqs rf nw A hargs]
  rw [hmd, hinv]
  rw [if_pos hfail]
  refine ⟨?_, rfl, rfl⟩
  cases h : d.download_path with
  | none => rw [makeDownloadDir_none w d h]; rfl
  | some p => rw [makeDownloadDir_some w d p h]; rfl

/-- Witness for C1 at a concrete world where pip always exits 1. -/
theorem download_nonsuccess_pkgErr_witness :
    invokedArgs (download failWorld ⟨none⟩ (some ["mock"]) none false).2.1
      = some ["download", "-d", "/tmp/pypiul", "mock"]
    ∧ (download failWorld ⟨none⟩ (some ["mock"]) none false).2.2
        = DownloadResult.pkgErr ⟨1, ["download", "-d", "/tmp/pypiul", "mock"],
            "package failed download, exit " ++ toString 1 ++ ". Arguments: "
              ++ pyListRepr ["download", "-d", "/tmp/pypiul", "mock"]⟩
    ∧ DownloadResult.producesResult
        (download failWorld ⟨none⟩ (some ["mock"]) none false).2.2 = false :=
  download_nonsuccess_pkgErr failWorld ⟨none⟩ (some ["mock"]) none false
    ["download", "-d", "/tmp/pypiul", "mock"] 1 (by rfl) (by rfl) (by decide)

theorem invokedArgs_after_mkdir (w : World) (d : PackageDownloader)
    (A : List String) :
    invokedArgs ((makeDownloadDir w d).2 ++ [Effect.pipInvoke A]) = some A := by
  cases h : d.download_path with
  | none => rw [makeDownloadDir_none w d h]; rfl
  | some p => rw [makeDownloadDir_some w d p h]; rfl

theorem isValueErr_ite (c : Prop) [Decidable c] (e : PackageDownloadErr)
    (ps : List String) :
    DownloadResult.isValueErr
        (if c then DownloadResult.pkgErr e else DownloadResult.ok ps)
      = false := by
  split <;> rfl

theorem download_fst (w : World) (d : PackageDownloader)
    (reqs : Option (List String)) (rf : Option String) (nw : Bool) :
    (download w d reqs rf nw).1 = (makeDownloadDir w d).1 := by
  rw [download_eq]
  cases hb : buildArgs w.pipVersion (resolvedPath w d) reqs rf nw with
  | error m => rw [downloadRest_error _ _ _ _ _ _ _ _ hb]
  | ok A => rw [downloadRest_ok _ _ _ _ _ _ _ _ hb]

/-- C2 counterexample: a `download` call with neither requirements nor a
requirements file does perform a filesystem side effect before failing:
with no configured destination it adopts a fresh temporary directory, and
only then raises the ValueError. -/
theorem download_no_request_counterexample :
    (download bareWorld ⟨none⟩ none none false).2.2
      = DownloadResult.valueErr
          "Either requirements or requirements_file must be given."
    ∧ (download bareWorld ⟨none⟩ none none false).2.1
        = [Effect.fs (FSEffect.mkdtemp "/tmp/pypiul")]
    ∧ (download bareWorld ⟨none⟩ none none false).1
        = ⟨some "/tmp/pypiul"⟩ := by decide

/-- C2 (amended): with neither requirements nor a requirements file, the
call fails with the ValueError and never invokes pip, but the directory
materialization step runs first: a fresh temporary directory is adopted
when no destination was configured, and otherwise directory creation is
attempted on the configured destination. -/
theorem download_no_request_behavior (w : World) (d : PackageDownloader)
    (nw : Bool) :
    (download w d none none nw).2.2
      = DownloadResult.valueErr
          "Either requirements or requirements_file must be given."
    ∧ invokedArgs (download w d none none nw).2.1 = none
    ∧ (d.download_path = none →
        (download w d none none nw).2.1
          = [Effect.fs (FSEffect.mkdtemp w.mkdtempResult)])
    ∧ (∀ p, d.download_path = some p →
        (download w d none none nw).2.1
          = [Effect.fs (FSEffect.makedirs p)]) := by
  have hb := buildArgs_neither w.pipVersion (resolvedPath w d) nw
  have he := download_eq w d none none nw
  rw [downloadRest_error _ _ _ _ _ _ _ _ hb] at he
  cases h : d.download_path with
  | none =>
      rw [makeDownloadDir_none w d h] at he
      rw [he]
      refine ⟨rfl, rfl, fun _ => rfl, ?_⟩
      intro q hq
      exact Option.noConfusion hq
  | some p =>
      rw [makeDownloadDir_some w d p h] at he
      rw [he]
      refine ⟨rfl, rfl, ?_, ?_⟩
      · intro hn
        exact Option.noConfusion hn
      · intro q hq
        injection hq with hpq
        rw [← hpq]

/-- C3 counterexample: a successful `download` into the relative
destination "pkgs", which holds one regular file and one subdirectory,
yields the single path "pkgs/a.tar.gz", which is not an absolute path. -/
theorem download_relative_dest_counterexample :
    (download relWorld ⟨some "pkgs"⟩ (some ["mock"]) none false).2.2
      = DownloadResult.ok ["pkgs/a.tar.gz"]
    ∧ isAbs "pkgs/a.tar.gz" = false := by decide

/-- C3 (amended): a successful `download` yields exactly one path per
regular file directly under the destination, each the destination path
joined with the file name, and none of the subdirectory paths; the
yielded paths are absolute whenever the resolved destination path is
absolute. -/
theorem download_success_lists_regular_files (w : World)
    (d : PackageDownloader) (reqs : Option (List String)) (rf : Option String)
    (nw : Bool) (A : List String)
    (hargs : buildArgs w.pipVersion (resolvedPath w d) reqs rf nw = Except.ok A)
    (hok : w.pipMain A = SUCCESS) :
    ∃ ps, (download w d reqs rf nw).2.2 = DownloadResult.ok ps
      ∧ ps.length
          = ((w.listdir (resolvedPath w d)).filter
              (fun n => w.isfile (osPathJoin (resolvedPath w d) n))).length
      ∧ (∀ q ∈ ps, w.isfile q = true
          ∧ ∃ n ∈ w.listdir (resolvedPath w d),
              q = osPathJoin (resolvedPath w d) n)
      ∧ (∀ n ∈ w.listdir (resolvedPath w d),
          w.isfile (osPathJoin (resolvedPath w d) n) = false →
            osPathJoin (resolvedPath w d) n ∉ ps)
      ∧ (isAbs (resolvedPath w d) = true → ∀ q ∈ ps, isAbs q = true) := by
  have he := download_eq w d reqs rf nw
  rw [downloadRest_ok _ _ _ _ _ _ _ _ hargs] at he
  have hsucc : ¬ w.pipMain A ≠ SUCCESS := by rw [hok]; exact fun hc => hc rfl
  rw [if_neg hsucc] at he
  have hld : listDownloadDir w (resolvedPath w d)
      = ((w.listdir (resolvedPath w d)).filter
          (fun n => w.isfile (osPathJoin (resolvedPath w d) n))).map
          (fun n => osPathJoin (resolvedPath w d) n) := by
    unfold listDownloadDir
    exact filterMap_guard _ _ _
  refine ⟨listDownloadDir w (resolvedPath w d), by rw [he], ?_, ?_, ?_, ?_⟩
  · rw [hld, List.length_map]
  · intro q hq
    rw [hld] at hq
    obtain ⟨n, hn, hqe⟩ := List.mem_map.1 hq
    obtain ⟨hmem, hfile⟩ := List.mem_filter.1 hn
    exact ⟨by rw [← hqe]; exact of_decide_eq_true (by simpa using hfile),
      ⟨n, hmem, hqe.symm⟩⟩
  · intro n hn hnot hin
    rw [hld] at hin
    obtain ⟨m, hm, hme⟩ := List.mem_map.1 hin
    obtain ⟨hmmem, hmfile⟩ := List.mem_filter.1 hm
    have : w.isfile (osPathJoin (resolvedPath w d) m) = true := by
      simpa using hmfile
    rw [hme] at this
    rw [this] at hnot
    cases hnot
  · intro habs q hq
    rw [hld] at hq
    obtain ⟨n, hn, hqe⟩ := List.mem_map.1 hq
    rw [← hqe]
    exact isAbs_osPathJoin _ _ habs

/-- Witness for C3 (amended) at a concrete world where pip succeeds and
the absolute destination "/pkgs" holds two files and a subdirectory. -/
theorem download_success_lists_regular_files_witness :
    ∃ ps, (download absWorld ⟨some "/pkgs"⟩ (some ["mock"]) none false).2.2
        = DownloadResult.ok ps
      ∧ ps.length
          = ((absWorld.listdir (resolvedPath absWorld ⟨some "/pkgs"⟩)).filter
              (fun n => absWorld.isfile
                (osPathJoin (resolvedPath absWorld ⟨some "/pkgs"⟩) n))).length
      ∧ (∀ q ∈ ps, absWorld.isfile q = true
          ∧ ∃ n ∈ absWorld.listdir (resolvedPath absWorld ⟨some "/pkgs"⟩),
              q = osPathJoin (resolvedPath absWorld ⟨some "/pkgs"⟩) n)
      ∧ (∀ n ∈ absWorld.listdir (resolvedPath absWorld ⟨some "/pkgs"⟩),
          absWorld.isfile
              (osPathJoin (resolvedPath absWorld ⟨some "/pkgs"⟩) n) = false →
            osPathJoin (resolvedPath absWorld ⟨some "/pkgs"⟩) n ∉ ps)
      ∧ (isAbs (resolvedPath absWorld ⟨some "/pkgs"⟩) = true →
          ∀ q ∈ ps, isAbs q = true) :=
  download_success_lists_regular_files absWorld ⟨some "/pkgs"⟩ (some ["mock"])
    none false ["download", "-d", "/pkgs", "mock"] (by rfl) (by rfl)

/-- C4: the constructed argument list is, in order, the subcommand token,
the destination flag `-d` with the destination value, then exactly when
requested the `--no-use-wheel` flag, then either the literal requirement
strings or the `-r` flag followed by the requirements file path. -/
theorem build_args_order (v : List Nat) (dest : String) (rs : List String)
    (f : String) (nw : Bool) :
    buildArgs v dest (some rs) (some f) nw
      = Except.ok (pipCommand v :: "-d" :: dest ::
          ((if nw then ["--no-use-wheel"] else []) ++ rs))
    ∧ buildArgs v dest (some rs) none nw
      = Except.ok (pipCommand v :: "-d" :: dest ::
          ((if nw then ["--no-use-wheel"] else []) ++ rs))
    ∧ buildArgs v dest none (some f) nw
      = Except.ok (pipCommand v :: "-d" :: dest ::
          ((if nw then ["--no-use-wheel"] else []) ++ ["-r", f])) :=
  ⟨buildArgs_some v dest rs (some f) nw, buildArgs_some v dest rs none nw,
   buildArgs_file v dest f nw⟩

/-- C5: the first token of every successfully constructed argument list
is "install" when the pip version is strictly below 8.0.0 and "download"
at or above 8.0.0. -/
theorem subcommand_selected_by_version (v : List Nat) (dest : String)
    (reqs : Option (List String)) (rf : Option String) (nw : Bool)
    (A : List String)
    (hA : buildArgs v dest reqs rf nw = Except.ok A) :
    A.head?
      = some (if versionLt v [8, 0, 0] = true then "install" else "download") := by
  cases reqs with
  | some rs =>
      rw [buildArgs_some v dest rs rf nw] at hA
      injection hA with hl
      rw [← hl]
      rfl
  | none =>
      cases rf with
      | some f =>
          rw [buildArgs_file v dest f nw] at hA
          injection hA with hl
          rw [← hl]
          rfl
      | none =>
          rw [buildArgs_neither v dest nw] at hA
          exact Except.noConfusion hA

/-- Witness for C5 at pip versions 7.1.2 and 8.1.2. -/
theorem subcommand_selected_by_version_witness :
    (["install", "-d", "/p", "mock"] : List String).head?
      = some (if versionLt [7, 1, 2] [8, 0, 0] = true then "install"
          else "download")
    ∧ (["download", "-d", "/p", "mock"] : List String).head?
      = some (if versionLt [8, 1, 2] [8, 0, 0] = true then "install"
          else "download") :=
  ⟨subcommand_selected_by_version [7, 1, 2] "/p" (some ["mock"]) none false
      ["install", "-d", "/p", "mock"] (by rfl),
   subcommand_selected_by_version [8, 1, 2] "/p" (some ["mock"]) none false
      ["download", "-d", "/p", "mock"] (by rfl)⟩

/-- C6 counterexample: with `os.makedirs` failing with permission denied
on the configured destination, the error is swallowed and the call runs
to a successful completion instead of propagating a directory-creation
failure. -/
theorem makedirs_error_swallowed_counterexample :
    deniedWorld.makedirsOutcome "pkgs" = some OSErrorKind.eacces
    ∧ download deniedWorld ⟨some "pkgs"⟩ (some ["mock"]) none false
        = (⟨some "pkgs"⟩,
           [Effect.fs (FSEffect.makedirs "pkgs"),
            Effect.pipInvoke ["download", "-d", "pkgs", "mock"]],
           DownloadResult.ok []) := by decide

/-- C6 (amended): the directory-creation step ignores every OSError-class
filesystem error alike, not only the already-exists condition: the state,
effect trace and result of a `download` call do not depend on the outcome
of `os.makedirs`, so conditions such as permission denied are silently
swallowed rather than propagated. -/
theorem makedirs_outcome_ignored (pv : List Nat) (mk : String)
    (o1 o2 : String → Option OSErrorKind) (pm : List String → Nat)
    (ld : String → List String) (fi : String → Bool) (d : PackageDownloader)
    (reqs : Option (List String)) (rf : Option String) (nw : Bool) :
    download ⟨pv, mk, o1, pm, ld, fi⟩ d reqs rf nw
      = download ⟨pv, mk, o2, pm, ld, fi⟩ d reqs rf nw := by
  obtain ⟨dp⟩ := d
  cases dp with
  | none => rfl
  | some p =>
      rw [download_eq, download_eq,
          makeDownloadDir_some _ _ p rfl, makeDownloadDir_some _ _ p rfl]
      rfl

/-- C7: once resolved, the destination directory never changes: a first
`download` call resolves it (to the configured path, or to the fresh
temporary directory when none was configured), and any later `download`
call on the resulting instance leaves it unchanged. -/
theorem download_path_stable (w1 w2 : World) (d : PackageDownloader)
    (r1 : Option (List String)) (f1 : Option String) (b1 : Bool)
    (r2 : Option (List String)) (f2 : Option String) (b2 : Bool) :
    (d.download_path = none →
      (download w1 d r1 f1 b1).1.download_path = some w1.mkdtempResult)
    ∧ (∀ p, d.download_path = some p →
      (download w1 d r1 f1 b1).1.download_path = some p)
    ∧ (download w2 (download w1 d r1 f1 b1).1 r2 f2 b2).1.download_path
        = (download w1 d r1 f1 b1).1.download_path := by
  have h1 : (download w1 d r1 f1 b1).1.download_path
      = some (resolvedPath w1 d) := by
    rw [download_fst, makeDownloadDir_fst_path]
  refine ⟨?_, ?_, ?_⟩
  · intro h
    rw [h1, resolvedPath_none w1 d h]
  · intro p h
    rw [h1, resolvedPath_some w1 d p h]
  · rw [download_fst w2, makeDownloadDir_fst_path,
        resolvedPath_some w2 _ (resolvedPath w1 d) h1, h1]

/-- Witness for C7: a first call with no configured destination adopts
the temporary directory, and a second call preserves it. -/
theorem download_path_stable_witness :
    (download bareWorld ⟨none⟩ (some ["mock"]) none false).1.download_path
      = some bareWorld.mkdtempResult
    ∧ (download bareWorld
        (download bareWorld ⟨none⟩ (some ["mock"]) none false).1
        (some ["requests"]) none true).1.download_path
      = (download bareWorld ⟨none⟩ (some ["mock"]) none false).1.download_path :=
  ⟨(download_path_stable bareWorld bareWorld ⟨none⟩ (some ["mock"]) none false
      (some ["requests"]) none true).1 rfl,
   (download_path_stable bareWorld bareWorld ⟨none⟩ (some ["mock"]) none false
      (some ["requests"]) none true).2.2⟩

/-- C8: when both requirements and a requirements file are supplied, no
error is raised: the call behaves exactly as if the requirements file had
not been supplied, the literal requirement strings are appended to the
argument list, and no `-r` flag appears. -/
theorem both_supplied_requirements_win (w : World) (d : PackageDownloader)
    (rs : List String) (f : String) (nw : Bool) :
    download w d (some rs) (some f) nw = download w d (some rs) none nw
    ∧ invokedArgs (download w d (some rs) (some f) nw).2.1
        = some (pipCommand w.pipVersion :: "-d" :: resolvedPath w d ::
            ((if nw then ["--no-use-wheel"] else []) ++ rs))
    ∧ DownloadResult.isValueErr (download w d (some rs) (some f) nw).2.2
        = false := by
  have h1 := buildArgs_some w.pipVersion (resolvedPath w d) rs (some f) nw
  have h2 := buildArgs_some w.pipVersion (resolvedPath w d) rs none nw
  refine ⟨?_, ?_, ?_⟩
  · rw [download_eq, download_eq, downloadRest_ok _ _ _ _ _ _ _ _ h1,
        downloadRest_ok _ _ _ _ _ _ _ _ h2]
  · rw [download_eq, downloadRest_ok _ _ _ _ _ _ _ _ h1]
    exact invokedArgs_after_mkdir w d _
  · rw [download_eq, downloadRest_ok _ _ _ _ _ _ _ _ h1]
    exact isValueErr_ite _ _ _

/-- C9: an empty (but supplied) requirements list with no requirements
file raises no error: the argument list simply ends after the subcommand,
the destination flag and value, and the optional `--no-use-wheel` flag,
with no specifier tokens and no `-r` flag. -/
theorem empty_requirements_no_error (w : World) (d : PackageDownloader)
    (nw : Bool) :
    DownloadResult.isValueErr (download w d (some []) none nw).2.2 = false
    ∧ invokedArgs (download w d (some []) none nw).2.1
        = some (pipCommand w.pipVersion :: "-d" :: resolvedPath w d ::
            (if nw then ["--no-use-wheel"] else [])) := by
  have h := buildArgs_some w.pipVersion (resolvedPath w d) [] none nw
  rw [List.append_nil] at h
  refine ⟨?_, ?_⟩
  · rw [download_eq, downloadRest_ok _ _ _ _ _ _ _ _ h]
    exact isValueErr_ite _ _ _
  · rw [download_eq, downloadRest_ok _ _ _ _ _ _ _ _ h]
    exact invokedArgs_after_mkdir w d _

/-- C10: argument construction is deterministic: two `download` calls
that agree on the pip version, the resolved destination directory, the
requirements, the requirements file and the wheel flag pass the same
argument list to pip, whatever the rest of the external world does. -/
theorem build_args_deterministic (pv : List Nat) (mk1 mk2 : String)
    (o1 o2 : String → Option OSErrorKind) (pm1 pm2 : List String → Nat)
    (ld1 ld2 : String → List String) (fi1 fi2 : String → Bool) (p : String)
    (reqs : Option (List String)) (rf : Option String) (nw : Bool) :
    invokedArgs
        (download ⟨pv, mk1, o1, pm1, ld1, fi1⟩ ⟨some p⟩ reqs rf nw).2.1
      = invokedArgs
        (download ⟨pv, mk2, o2, pm2, ld2, fi2⟩ ⟨some p⟩ reqs rf nw).2.1 := by
  rw [download_eq, download_eq,
      makeDownloadDir_some _ _ p rfl, makeDownloadDir_some _ _ p rfl,
      resolvedPath_some _ _ p rfl, resolvedPath_some _ _ p rfl]
  cases hb : buildArgs pv p reqs rf nw with
  | error m =>
      rw [downloadRest_error _ _ _ _ _ _ _ _ hb,
          downloadRest_error _ _ _ _ _ _ _ _ hb]
  | ok A =>
      rw [downloadRest_ok _ _ _ _ _ _ _ _ hb,
          downloadRest_ok _ _ _ _ _ _ _ _ hb]

/-- Witness for C2 (amended) at a concrete world with no configured
destination. -/
theorem download_no_request_behavior_witness :
    (download bareWorld ⟨none⟩ none none true).2.2
      = DownloadResult.valueErr
          "Either requirements or requirements_file must be given."
    ∧ invokedArgs (download bareWorld ⟨none⟩ none none true).2.1 = none
    ∧ (download bareWorld ⟨none⟩ none none true).2.1
        = [Effect.fs (FSEffect.mkdtemp bareWorld.mkdtempResult)] :=
  ⟨(download_no_request_behavior bareWorld ⟨none⟩ true).1,
   (download_no_request_behavior bareWorld ⟨none⟩ true).2.1,
   (download_no_request_behavior bareWorld ⟨none⟩ true).2.2.1 rfl⟩

end PypiUploader

